import Mathlib

/-!
Shallow embedding of the photoshop-python-api core mechanisms
(src/photoshop/api/_core.py and the collection wrappers), together with
theorems settling the spec claims about them.

Conventions of the embedding:
* Exceptions are modelled by the inductive `ExcKind` (the Python exception
  classes that occur in the source) plus a message string; fallible code
  returns `Except Exc α`.
* A COM remote handle's collection is modelled as a `List` of elements in
  live order; the boundary accessor `comItem` is 1-origin and fails with
  `COMError` out of range, per the boundary protocol described in the
  source comments ("Photoshop arrays start at index of 1").
* Python list indexing (`xs[i]`) is modelled by `pyGet`: negative indices
  wrap from the end, out-of-range raises `IndexError "list index out of
  range"` with no index value in the message, exactly like CPython.
-/

namespace PSApi

/-- The Python exception classes that appear in the source's `except`
clauses and `raise` statements. `psAPIError` is the library's own
`PhotoshopPythonAPIError`; `otherError` stands for any exception class not
named in the source. -/
inductive ExcKind where
  | comError
  | nameError
  | osError
  | indexError
  | keyError
  | argumentError
  | attributeError
  | psAPIError
  | otherError
deriving DecidableEq, Repr

/-- An exception value: a class together with its message. -/
structure Exc where
  kind : ExcKind
  msg : String
deriving DecidableEq, Repr

/-- Model of the boundary protocol's 1-origin collection accessor
(`self.app.item(i)` on a COM collection): position `i` counts from 1;
any out-of-range position fails with a `COMError` (generic "invocation
failed" of the boundary protocol). -/
def comItem {α : Type} (xs : List α) (i : Int) : Except Exc α :=
  if h : 1 ≤ i ∧ i ≤ xs.length then
    .ok (xs.get ⟨(i - 1).toNat, by omega⟩)
  else
    .error ⟨.comError, "Exception occurred. Invalid index."⟩

/-- CPython list indexing `xs[i]`: negative indices count from the end;
out of range raises `IndexError("list index out of range")`. -/
def pyGet {α : Type} (xs : List α) (i : Int) : Except Exc α :=
  let j : Int := if i < 0 then i + xs.length else i
  if 0 ≤ j then
    match xs.get? j.toNat with
    | some a => .ok a
    | none => .error ⟨.indexError, "list index out of range"⟩
  else
    .error ⟨.indexError, "list index out of range"⟩

/-- "string `s` contains `sub` as a substring", expressed as a
concatenation decomposition. -/
def strContains (s sub : String) : Prop :=
  ∃ pre post : String, s = pre ++ sub ++ post

/-! ## Version Registry (src/photoshop/api/constants.py) -/

/-- `PHOTOSHOP_VERSION_MAPPINGS` from constants.py: Photoshop year label
to COM program-identifier version suffix. -/
def PHOTOSHOP_VERSION_MAPPINGS : List (String × String) :=
  [("2025", "190"), ("2024", "180"), ("2023", "170"), ("2022", "160"),
   ("2021", "150"), ("2020", "140"), ("2019", "130"), ("2018", "120"),
   ("2017", "110")]

/-! ## Photoshop core (src/photoshop/api/_core.py) -/

/-- `Photoshop._get_progid`: `"Photoshop.Application"` with the version
suffix appended when a non-empty version is given (`_name if not version
else f"{_name}.{version}"`; Python's `not version` is true for both
`None` and the empty string). -/
def get_progid (version : Option String) : String :=
  let name := "Photoshop.Application"
  match version with
  | none => name
  | some v => if v = "" then name else name ++ "." ++ v

/-- Python's `str.strip()` with no argument: remove leading and trailing
whitespace. -/
def pyStrip (s : String) : String :=
  ⟨((s.data.dropWhile Char.isWhitespace).reverse.dropWhile Char.isWhitespace).reverse⟩

/-- The version-argument normalization performed by `Photoshop.__init__`:
`os.environ.get("PS_VERSION", ps_version)` (the environment variable wins
when present), then, when the stripped value is a key of
`PHOTOSHOP_VERSION_MAPPINGS`, replace it by the mapped identifier;
otherwise the original (unstripped) value is kept. -/
def initVersionArg (envPSVersion : Option String) (ps_version : Option String) :
    Option String :=
  let given := match envPSVersion with
    | some v => some v
    | none => ps_version
  match given with
  | none => none
  | some v =>
    let formatted := pyStrip v
    match PHOTOSHOP_VERSION_MAPPINGS.lookup formatted with
    | some mapped => some mapped
    | none => some v

/-- Result of one run of `Photoshop._get_dispatch`: the progid whose
dispatch succeeded (standing for the returned COM handle), the value of
the process-wide `Photoshop._app_version` afterwards, and the list of
progids for which a dispatch was attempted, in order. -/
structure ResolveResult where
  handle : Option String
  cache : Option String
  attempts : List String
deriving DecidableEq, Repr

/-- The registry loop plus final unqualified attempt of
`Photoshop._get_dispatch` (steps 3 and 4): try each version from the
registry list in order, caching the winner only when no version was
cached; finally try the progid with no version suffix. `avail p = true`
models `CreateObject(p, dynamic=True)` succeeding. -/
def dispatchSteps34 (avail : String → Bool) (cached : Option String) :
    List String → ResolveResult
  | [] =>
    let pid := get_progid none
    ⟨if avail pid then some pid else none, cached, [pid]⟩
  | v :: rest =>
    let pid := get_progid (some v)
    if avail pid then
      ⟨some pid, if cached = none then some v else cached, [pid]⟩
    else
      let r := dispatchSteps34 avail cached rest
      ⟨r.handle, r.cache, pid :: r.attempts⟩

/-- Step 2 of `Photoshop._get_dispatch` ("Try manual version") followed by
steps 3 and 4: when a version argument is present its progid is attempted,
and on success it is cached only when no version was cached yet. -/
def dispatchStep2 (avail : String → Bool) (cached : Option String)
    (version : Option String) (registryVersions : List String) : ResolveResult :=
  match version with
  | none => dispatchSteps34 avail cached registryVersions
  | some v =>
    let pid := get_progid (some v)
    if avail pid then
      ⟨some pid, if cached = none then some v else cached, [pid]⟩
    else
      let r := dispatchSteps34 avail cached registryVersions
      ⟨r.handle, r.cache, pid :: r.attempts⟩

/-- `Photoshop._get_dispatch`: first the cached `Photoshop._app_version`
is attempted when present ("Try existing version"); on its failure the
manual version, the registry-enumerated versions and finally the
unqualified progid are attempted. `registryVersions` is the list returned
by `Photoshop._get_photoshop_versions` (already sorted descending; empty
on registry read failure). -/
def get_dispatch (avail : String → Bool) (cached : Option String)
    (version : Option String) (registryVersions : List String) : ResolveResult :=
  match cached with
  | none => dispatchStep2 avail none version registryVersions
  | some cv =>
    let pid := get_progid (some cv)
    if avail pid then
      ⟨some pid, cached, [pid]⟩
    else
      let r := dispatchStep2 avail cached version registryVersions
      ⟨r.handle, r.cache, pid :: r.attempts⟩

/-! ## Layers collection (src/photoshop/api/_layers.py) -/

/-- A remote layer element as seen by the `Layers` wrapper: an identity
and the outcome of reading its `kind` property (`none`: the read
succeeds, so the element is an ArtLayer; `some e`: the read raises `e`).
No discriminant field exists on the remote object. -/
structure RemoteLayer where
  id : Nat
  kindProbe : Option Exc
deriving DecidableEq, Repr

/-- The wrapper produced for one element of a `Layers` collection. -/
inductive LayerWrapper where
  | artLayer (id : Nat)
  | layerSet (id : Nat)
deriving DecidableEq, Repr

/-- The per-element body of `Layers.__iter__`: probe `layer.kind`; on
success yield `ArtLayer(layer)`; `except (COMError, NameError, OSError)`
yield `LayerSet(layer)`; any other exception propagates out of the
generator. -/
def Layers_iterClassify (l : RemoteLayer) : Except Exc LayerWrapper :=
  match l.kindProbe with
  | none => .ok (.artLayer l.id)
  | some e =>
    if e.kind = .comError ∨ e.kind = .nameError ∨ e.kind = .osError then
      .ok (.layerSet l.id)
    else
      .error e

/-- `Layers.__iter__` over the whole live collection: elements are
classified in order until one raises an uncaught exception. -/
def Layers_iter (xs : List RemoteLayer) : Except Exc (List LayerWrapper) :=
  xs.mapM Layers_iterClassify

/-- The message of the `IndexError` raised by `Layers.item`. -/
def Layers_itemMsg (index : Int) : String :=
  "Index [" ++ toString index ++ "] is outside the range of this layer collection."

/-- `Layers.item`: fetch `self.app.item(index + 1)` and probe
`layer.kind` inside one `try` block; `except NameError` around the probe
yields `LayerSet`; the outer `except (IndexError, COMError)` re-raises as
`IndexError` with the 0-origin index in the message; other exceptions
propagate. -/
def Layers_item (xs : List RemoteLayer) (index : Int) : Except Exc LayerWrapper :=
  let inner : Except Exc LayerWrapper :=
    match comItem xs (index + 1) with
    | .error e => .error e
    | .ok l =>
      match l.kindProbe with
      | none => .ok (.artLayer l.id)
      | some e =>
        if e.kind = .nameError then .ok (.layerSet l.id) else .error e
  match inner with
  | .ok w => .ok w
  | .error e =>
    if e.kind = .indexError ∨ e.kind = .comError then
      .error ⟨.indexError, Layers_itemMsg index⟩
    else
      .error e

/-- The message of the `KeyError` raised by `Layers.getByName`. -/
def Layers_getByNameMsg (name : String) : String :=
  "Layer with name " ++ "'" ++ name ++ "'" ++ " not found in this layer collection."

/-- `Layers.getByName`: fetch `self.app[name]` and probe `layer.kind`
inside one `try` block; `except NameError` around the probe yields
`LayerSet`; the outer `except (KeyError, COMError)` re-raises as
`KeyError` with the requested name in the message; other exceptions
propagate. `lookup` is the outcome of the boundary name lookup
`self.app[name]`. -/
def Layers_getByName (lookup : Except Exc RemoteLayer) (name : String) :
    Except Exc LayerWrapper :=
  let inner : Except Exc LayerWrapper :=
    match lookup with
    | .error e => .error e
    | .ok l =>
      match l.kindProbe with
      | none => .ok (.artLayer l.id)
      | some e =>
        if e.kind = .nameError then .ok (.layerSet l.id) else .error e
  match inner with
  | .ok w => .ok w
  | .error e =>
    if e.kind = .keyError ∨ e.kind = .comError then
      .error ⟨.keyError, Layers_getByNameMsg name⟩
    else
      .error e

/-! ## LayerSets collection (src/photoshop/api/_layerSets.py) -/

/-- `LayerSets.item`: `LayerSet(self.app.item(index + 1))`, with
`except (IndexError, COMError)` re-raised as `IndexError` carrying the
0-origin index. Elements are identified by `Nat`. -/
def LayerSets_item (xs : List Nat) (index : Int) : Except Exc Nat :=
  match comItem xs (index + 1) with
  | .ok l => .ok l
  | .error e =>
    if e.kind = .indexError ∨ e.kind = .comError then
      .error ⟨.indexError, Layers_itemMsg index⟩
    else
      .error e

/-- `LayerSets.__getitem__` (also `LayerSets.getByName`, which returns
`self[name]`): `LayerSet(self.app[key])` with only `except ArgumentError`
re-raised as `PhotoshopPythonAPIError`; every other failure of the
boundary lookup propagates raw. -/
def LayerSets_getitem (lookup : Except Exc Nat) (key : String) : Except Exc Nat :=
  match lookup with
  | .ok l => .ok l
  | .error e =>
    if e.kind = .argumentError then
      .error ⟨.psAPIError, "Could not find a LayerSet named \"" ++ key ++ "\""⟩
    else
      .error e

/-- `LayerComps.__getitem__` (also `LayerComps.getByName`): same shape as
`LayerSets.__getitem__` — only `ArgumentError` is converted. -/
def LayerComps_getitem (lookup : Except Exc Nat) (key : String) : Except Exc Nat :=
  match lookup with
  | .ok l => .ok l
  | .error e =>
    if e.kind = .argumentError then
      .error ⟨.psAPIError, "Could not find a LayerComp named \"" ++ key ++ "\""⟩
    else
      .error e

/-! ## Documents collection (src/photoshop/api/_documents.py) -/

/-- The message of the `IndexError` raised by `Documents.item`. -/
def Documents_itemMsg (index : Int) : String :=
  "Index [" ++ toString index ++ "] out of range in Documents collection."

/-- `Documents.item`: `Document(self.app.item(index + 1))`, with
`except (COMError, IndexError)` re-raised as `IndexError` carrying the
0-origin index. -/
def Documents_item (xs : List Nat) (index : Int) : Except Exc Nat :=
  match comItem xs (index + 1) with
  | .ok d => .ok d
  | .error e =>
    if e.kind = .comError ∨ e.kind = .indexError then
      .error ⟨.indexError, Documents_itemMsg index⟩
    else
      .error e

/-- `Documents.getByName`: `Document(self.app[name])` with
`except (ArgumentError, COMError, KeyError)` re-raised as `KeyError`
carrying the requested name. -/
def Documents_getByName (lookup : Except Exc Nat) (name : String) : Except Exc Nat :=
  match lookup with
  | .ok d => .ok d
  | .error e =>
    if e.kind = .argumentError ∨ e.kind = .comError ∨ e.kind = .keyError then
      .error ⟨.keyError, "No document found with name " ++ "'" ++ name ++ "'" ++ "."⟩
    else
      .error e

/-! ## Channels collection (src/photoshop/api/_channels.py) -/

/-- A remote channel element: its `name` property and an identity. -/
structure RemoteChannel where
  name : String
  id : Nat
deriving DecidableEq, Repr

/-- `Channels.__getitem__`: `Channel(self.app[index])` — the caller's
index is forwarded unchanged to the 1-origin boundary accessor, with no
translation and no exception handling. -/
def Channels_getitem {α : Type} (xs : List α) (index : Int) : Except Exc α :=
  comItem xs index

/-- `Channels.getByName`: walk `self._channels` (= `list(self.app)`)
comparing each element's `name`; return the first match, else raise
`PhotoshopPythonAPIError` with the requested name in the message. -/
def Channels_getByName (xs : List RemoteChannel) (name : String) :
    Except Exc RemoteChannel :=
  match xs.find? (fun c => c.name = name) with
  | some c => .ok c
  | none => .error ⟨.psAPIError, "Could not find a channel named \"" ++ name ++ "\""⟩

/-! ## ArtLayers collection (src/photoshop/api/_artlayers.py) -/

/-- `ArtLayers.getByIndex`: `ArtLayer(self._layers[index])`, where
`self._layers` is `list(self.app)` — a materialized Python list indexed
with Python (0-origin, negative-wrapping) semantics; no index is passed
to the remote collection. -/
def ArtLayers_getByIndex (xs : List Nat) (index : Int) : Except Exc Nat :=
  pyGet xs index

/-- `ArtLayers.__getitem__` (also `ArtLayers.getByName`):
`ArtLayer(self.app[key])` with `except (ArgumentError, COMError,
KeyError)` re-raised as `KeyError` carrying the requested name. -/
def ArtLayers_getitem (lookup : Except Exc Nat) (key : String) : Except Exc Nat :=
  match lookup with
  | .ok l => .ok l
  | .error e =>
    if e.kind = .argumentError ∨ e.kind = .comError ∨ e.kind = .keyError then
      .error ⟨.keyError, "Could not find an ArtLayer named \"" ++ key ++ "\""⟩
    else
      .error e

/-! ## Notifiers collection (src/photoshop/api/_notifiers.py) -/

/-- `Notifiers.__getitem__`: `Notifier(self._notifiers[item])` — Python
list indexing of the materialized `list(self.app)` — with only
`except ArgumentError` re-raised as `PhotoshopPythonAPIError`; the
`IndexError` that Python list indexing raises out of range propagates
untouched. -/
def Notifiers_getitem (xs : List Nat) (item : Int) : Except Exc Nat :=
  match pyGet xs item with
  | .ok n => .ok n
  | .error e =>
    if e.kind = .argumentError then
      .error ⟨.psAPIError, "Could not find a Notifier with index " ++ toString item⟩
    else
      .error e

/-! ## remove wrappers -/

/-- `ArtLayer.remove` (src/photoshop/api/_artlayer.py): the single
`self.app.delete()` call runs under `with suppress(Exception)`, so the
wrapper returns normally whatever the delete call's outcome
(`deleteResult`) was. -/
def ArtLayer_remove (deleteResult : Except Exc Unit) : Except Exc Unit :=
  match deleteResult with
  | _ => .ok ()

/-- `LayerSet.remove` (src/photoshop/api/_layerSet.py): bare
`self.app.delete()` — the delete call's outcome is returned as is, any
exception propagating to the caller. -/
def LayerSet_remove (deleteResult : Except Exc Unit) : Except Exc Unit :=
  deleteResult

/-- `LayerComp.remove` (src/photoshop/api/_layerComp.py): bare
`self.app.remove()` — the call's outcome is returned as is. -/
def LayerComp_remove (deleteResult : Except Exc Unit) : Except Exc Unit :=
  deleteResult

/-! ## Delegating proxy (`Photoshop.__getattribute__`, default
`object.__setattr__`) -/

/-- The attribute state relevant to the proxy: the wrapper's own declared
surface (instance and class attributes) and the attributes of the
underlying COM handle `self.app`. Values are `Nat` for concreteness. -/
structure PSWrapper where
  attrs : List (String × Nat)
  appAttrs : List (String × Nat)
deriving DecidableEq, Repr

/-- `Photoshop.__getattribute__`: normal attribute lookup on the wrapper
first; on `AttributeError`, `getattr(self.app, item)` — the handle's
value is returned verbatim (`none` when the handle lacks it too). -/
def Photoshop_getattribute (w : PSWrapper) (item : String) : Option Nat :=
  match w.attrs.lookup item with
  | some v => some v
  | none => w.appAttrs.lookup item

/-- Attribute writes on a wrapper: `Photoshop` defines no `__setattr__`,
so Python's default `object.__setattr__` stores the value in the
wrapper's own dictionary; the underlying handle is not touched. -/
def Photoshop_setattr (w : PSWrapper) (item : String) (v : Nat) : PSWrapper :=
  { w with attrs := (item, v) :: w.attrs }

/-! ## Application singleton (src/photoshop/api/application.py) -/

/-- The class-level state of `Application`: `_app_initialized`,
`_app_instance` (the cached instance's identity), plus a supply of fresh
identities standing for `object.__new__` allocation. -/
structure AppClassState where
  initialized : Bool
  instRef : Option Nat
  nextId : Nat
deriving DecidableEq, Repr

/-- The observable outcome of one `Application(version, singleton)`
call: the identity of the instance returned, whether
`Photoshop.__init__` was run (a fresh dispatch resolution), and the
class state afterwards. -/
structure AppCallResult where
  returned : Nat
  didInit : Bool
  initArg : Option (Option String)
  state : AppClassState
deriving DecidableEq, Repr

/-- One `Application(version, singleton)` call: `__new__` allocates a
fresh object iff `singleton is False or Application._app_instance is
None`, else returns the cached instance; `__init__` then runs the full
initialization (`super().__init__(ps_version=version)`) iff
`not singleton`, or `singleton` and `Application._app_initialized` is
still false (in which case it also caches the instance and sets the
flag). `initArg` records the version passed to the full initialization,
`none` when it was skipped. -/
def Application_call (s : AppClassState) (version : Option String)
    (singleton : Bool) : AppCallResult :=
  let alloc : Nat × AppClassState :=
    match s.instRef with
    | none => (s.nextId, { s with nextId := s.nextId + 1 })
    | some i =>
      if singleton = false then (s.nextId, { s with nextId := s.nextId + 1 })
      else (i, s)
  let obj := alloc.1
  let s1 := alloc.2
  if ¬ singleton then
    ⟨obj, true, some version, s1⟩
  else if ¬ s1.initialized then
    ⟨obj, true, some version, { s1 with initialized := true, instRef := some obj }⟩
  else
    ⟨obj, false, none, s1⟩

/-! ## Helper lemmas -/

theorem comItem_in_range {α : Type} (xs : List α) (i : Nat) (h : i < xs.length) :
    comItem xs ((i : Int) + 1) = .ok (xs.get ⟨i, h⟩) := by
  unfold comItem
  rw [dif_pos (by constructor <;> omega)]
  have hi : (((i : Int) + 1) - 1).toNat = i := by omega
  simp only [hi]

theorem comItem_out_of_range {α : Type} (xs : List α) (i : Int)
    (h : i < 1 ∨ (xs.length : Int) < i) :
    comItem xs i = .error ⟨.comError, "Exception occurred. Invalid index."⟩ := by
  unfold comItem
  rw [dif_neg (by omega)]

theorem dispatchSteps34_cache_preserved (avail : String → Bool) (c : String)
    (regs : List String) :
    (dispatchSteps34 avail (some c) regs).cache = some c := by
  induction regs with
  | nil => simp [dispatchSteps34]
  | cons v rest ih =>
    by_cases h : avail (get_progid (some v)) <;>
      simp [dispatchSteps34, h, ih]

theorem dispatchStep2_cache_preserved (avail : String → Bool) (c : String)
    (version : Option String) (regs : List String) :
    (dispatchStep2 avail (some c) version regs).cache = some c := by
  match version with
  | none => simpa [dispatchStep2] using dispatchSteps34_cache_preserved avail c regs
  | some v =>
    by_cases h : avail (get_progid (some v)) <;>
      simp [dispatchStep2, h, dispatchSteps34_cache_preserved]

/-! ## Claim theorems -/

/-- C9: In `Photoshop.__init__`, the `PS_VERSION` environment variable,
when set, takes precedence over the caller's `ps_version` argument (the
argument does not influence the resolved version string), and the
argument is consulted when the environment variable is absent. -/
theorem c9_env_var_precedence :
    (∀ (e : String) (ps ps' : Option String),
       initVersionArg (some e) ps = initVersionArg (some e) ps') ∧
    initVersionArg (some "2025") (some "2024") = some "190" ∧
    initVersionArg none (some "2024") = some "180" := by
  refine ⟨fun e ps ps' => rfl, by decide, by decide⟩

/-- C2: With no VersionToken cached and version hint "2024",
`Photoshop.__init__` normalizes the hint through
`PHOTOSHOP_VERSION_MAPPINGS` to "180", and `Photoshop._get_dispatch`
attempts the progid `Photoshop.Application.180` first — before any
registry-enumerated version and before the unqualified progid —
whatever the registry contents and whatever dispatch attempts succeed. -/
theorem c2_version_hint_precedence (avail : String → Bool) (regs : List String) :
    initVersionArg none (some "2024") = some "180" ∧
    get_progid (some "180") = "Photoshop.Application.180" ∧
    (get_dispatch avail none (initVersionArg none (some "2024")) regs).attempts.head? =
      some "Photoshop.Application.180" := by
  refine ⟨by decide, by decide, ?_⟩
  show (dispatchStep2 avail none (some "180") regs).attempts.head? = _
  by_cases h : avail "Photoshop.Application.180" <;>
    simp [dispatchStep2, h, get_progid]

/-- C3 (amended): While a VersionToken is cached, its program identifier
is attempted first, and the cached token is never replaced by a
resolution request — `Photoshop._app_version` is unchanged by
`_get_dispatch` whenever it was already set — but when the cached
identifier fails to dispatch, the resolver goes on to attempt the
version hint, the registry versions, and the unqualified identifier. -/
theorem c3_amended_cached_version_first_and_preserved (avail : String → Bool)
    (v : Option String) (regs : List String) (c : String) :
    (get_dispatch avail (some c) v regs).attempts.head? = some (get_progid (some c)) ∧
    (get_dispatch avail (some c) v regs).cache = some c := by
  constructor
  · by_cases h : avail (get_progid (some c)) <;> simp [get_dispatch, h]
  · by_cases h : avail (get_progid (some c)) <;>
      simp [get_dispatch, h, dispatchStep2_cache_preserved]

/-- C3 (counterexample): with version "140" cached but its progid no
longer dispatchable and a hint "180" that is, the resolver does not try
only the cached identifier: it attempts and connects to
`Photoshop.Application.180`, contradicting "the cached token's
identifier is what is tried" (the token itself is indeed kept). -/
theorem c3_counterexample_cached_not_only_attempt :
    (get_dispatch (fun s => s == "Photoshop.Application.180") (some "140")
        (some "180") []).attempts ≠ ["Photoshop.Application.140"] ∧
    (get_dispatch (fun s => s == "Photoshop.Application.180") (some "140")
        (some "180") []).handle = some "Photoshop.Application.180" ∧
    (get_dispatch (fun s => s == "Photoshop.Application.180") (some "140")
        (some "180") []).cache = some "140" := by
  decide

/-- C1 (amended): The `+1` index translation to the 1-origin remote
convention holds for `Documents.item`, `LayerSets.item` and
`Layers.item`; `ArtLayers.getByIndex` passes no index to the remote
collection at all, indexing a materialized local list 0-origin (which
selects the same element for non-negative indices); and
`Channels.__getitem__` forwards the caller's index unchanged, so it
exposes the remote 1-origin convention — a 1-origin position retrieves
the 0-origin `i`-th element. -/
theorem c1_amended_index_translation (xs : List Nat) (ys : List RemoteLayer)
    (i : Nat) (h : i < xs.length) (hy : i < ys.length)
    (hleaf : ∀ l ∈ ys, l.kindProbe = none) :
    Documents_item xs i = .ok (xs.get ⟨i, h⟩) ∧
    LayerSets_item xs i = .ok (xs.get ⟨i, h⟩) ∧
    ArtLayers_getByIndex xs i = .ok (xs.get ⟨i, h⟩) ∧
    Channels_getitem xs ((i : Int) + 1) = .ok (xs.get ⟨i, h⟩) ∧
    Layers_item ys i = .ok (.artLayer (ys.get ⟨i, hy⟩).id) := by
  refine ⟨?_, ?_, ?_, ?_, ?_⟩
  · unfold Documents_item
    rw [comItem_in_range xs i h]
  · unfold LayerSets_item
    rw [comItem_in_range xs i h]
  · unfold ArtLayers_getByIndex pyGet
    have hneg : ¬((i : Int) < 0) := by omega
    simp only [hneg, if_false, Int.toNat_natCast]
    rw [if_pos (by omega), List.get?_eq_get h]
  · exact comItem_in_range xs i h
  · unfold Layers_item
    rw [comItem_in_range ys i hy]
    have hk := hleaf (ys.get ⟨i, hy⟩) (List.get_mem ys i hy)
    simp only [List.get_eq_getElem] at hk
    simp [hk]

/-- C1 (witness): the amended index-translation statement at the
two-element collection `[10, 20]` and index `1`. -/
theorem c1_amended_index_translation_witness :
    Documents_item [10, 20] 1 = .ok 20 ∧
    LayerSets_item [10, 20] 1 = .ok 20 ∧
    ArtLayers_getByIndex [10, 20] 1 = .ok 20 ∧
    Channels_getitem ([10, 20] : List Nat) (1 + 1) = .ok 20 ∧
    Layers_item [⟨10, none⟩, ⟨20, none⟩] 1 = .ok (.artLayer 20) := by
  have h := c1_amended_index_translation [10, 20] [⟨10, none⟩, ⟨20, none⟩] 1
    (by decide) (by decide) (by decide)
  exact ⟨h.1, h.2.1, h.2.2.1, h.2.2.2.1, h.2.2.2.2⟩

/-- C1 (counterexample): `Channels.__getitem__` does not add 1 — on a
one-element channel collection, wrapper index 0 (whose translated
external index would be 1, retrieving the element) instead reaches the
out-of-range external position 0 and fails with the raw boundary error. -/
theorem c1_counterexample_channels_index_not_translated :
    Channels_getitem ([5] : List Nat) 0 =
      .error ⟨.comError, "Exception occurred. Invalid index."⟩ ∧
    Channels_getitem ([5] : List Nat) 0 ≠ .ok 5 := by
  refine ⟨rfl, ?_⟩
  simp [Channels_getitem, comItem]

/-- C4 (amended): On every classification path an element is classified
`ArtLayer` exactly when the `kind` probe succeeds, but the failure
handling differs per path: `Layers.__iter__` classifies `LayerSet` on
any of `COMError`, `NameError` or `OSError` (swallowing the latter two
kinds of non-specific failures) and propagates others; `Layers.item` and
`Layers.getByName` classify `LayerSet` only on `NameError`, convert a
`COMError` probe failure into their own `IndexError`/`KeyError`, and
propagate other failures. -/
theorem c4_amended_per_path_classification (id : Nat) (m nm : String) :
    (Layers_iterClassify ⟨id, none⟩ = .ok (.artLayer id)) ∧
    (∀ k, Layers_iterClassify ⟨id, some ⟨k, m⟩⟩ ≠ .ok (.artLayer id)) ∧
    (Layers_iterClassify ⟨id, some ⟨.comError, m⟩⟩ = .ok (.layerSet id)) ∧
    (Layers_iterClassify ⟨id, some ⟨.nameError, m⟩⟩ = .ok (.layerSet id)) ∧
    (Layers_iterClassify ⟨id, some ⟨.osError, m⟩⟩ = .ok (.layerSet id)) ∧
    (Layers_iterClassify ⟨id, some ⟨.keyError, m⟩⟩ = .error ⟨.keyError, m⟩) ∧
    (Layers_item [⟨id, none⟩] 0 = .ok (.artLayer id)) ∧
    (Layers_item [⟨id, some ⟨.nameError, m⟩⟩] 0 = .ok (.layerSet id)) ∧
    (Layers_item [⟨id, some ⟨.comError, m⟩⟩] 0 =
       .error ⟨.indexError, Layers_itemMsg 0⟩) ∧
    (Layers_item [⟨id, some ⟨.osError, m⟩⟩] 0 = .error ⟨.osError, m⟩) ∧
    (Layers_getByName (.ok ⟨id, none⟩) nm = .ok (.artLayer id)) ∧
    (Layers_getByName (.ok ⟨id, some ⟨.nameError, m⟩⟩) nm = .ok (.layerSet id)) ∧
    (Layers_getByName (.ok ⟨id, some ⟨.comError, m⟩⟩) nm =
       .error ⟨.keyError, Layers_getByNameMsg nm⟩) ∧
    (Layers_getByName (.ok ⟨id, some ⟨.osError, m⟩⟩) nm = .error ⟨.osError, m⟩) := by
  refine ⟨rfl, ?_, rfl, rfl, rfl, rfl, rfl, rfl, rfl, rfl, rfl, rfl, rfl, rfl⟩
  intro k
  cases k <;> simp [Layers_iterClassify]

/-- C4 (counterexample): the same non-specific probe failure (an
`OSError`, which is not the boundary protocol's "unsupported member"
failure) is swallowed by the iteration path — classified as a
`LayerSet` — while the positional path propagates it, so classification
is not "GroupVariant exactly on the unsupported-member failure, all
other failures propagate" on every path. -/
theorem c4_counterexample_iter_swallows_oserror :
    Layers_iterClassify ⟨7, some ⟨.osError, "The disk is full."⟩⟩ =
      .ok (.layerSet 7) ∧
    Layers_item [⟨7, some ⟨.osError, "The disk is full."⟩⟩] 0 =
      .error ⟨.osError, "The disk is full."⟩ := ⟨rfl, rfl⟩

/-- C5 (amended): For every out-of-range index (negative or at least the
live length), `Documents.item`, `LayerSets.item` and `Layers.item` fail
with the library's own `IndexError` whose message embeds the offending
0-origin index; `Notifiers.__getitem__` and `Channels.__getitem__` do
not share this behavior (see the counterexample). -/
theorem c5_amended_bounds_error (xs : List Nat) (ys : List RemoteLayer) (i : Int)
    (h : i < 0 ∨ (xs.length : Int) ≤ i) (hy : i < 0 ∨ (ys.length : Int) ≤ i) :
    Documents_item xs i = .error ⟨.indexError, Documents_itemMsg i⟩ ∧
    strContains (Documents_itemMsg i) (toString i) ∧
    LayerSets_item xs i = .error ⟨.indexError, Layers_itemMsg i⟩ ∧
    strContains (Layers_itemMsg i) (toString i) ∧
    Layers_item ys i = .error ⟨.indexError, Layers_itemMsg i⟩ := by
  refine ⟨?_, ⟨"Index [", "] out of range in Documents collection.", rfl⟩,
    ?_, ⟨"Index [", "] is outside the range of this layer collection.", rfl⟩, ?_⟩
  · unfold Documents_item
    rw [comItem_out_of_range xs (i + 1) (by omega)]
    rfl
  · unfold LayerSets_item
    rw [comItem_out_of_range xs (i + 1) (by omega)]
    rfl
  · unfold Layers_item
    rw [comItem_out_of_range ys (i + 1) (by omega)]
    rfl

/-- C5 (witness): the amended bounds-error statement at the empty
collection and index 5. -/
theorem c5_amended_bounds_error_witness :
    Documents_item [] 5 = .error ⟨.indexError, Documents_itemMsg 5⟩ ∧
    LayerSets_item [] 5 = .error ⟨.indexError, Layers_itemMsg 5⟩ ∧
    Layers_item [] 5 = .error ⟨.indexError, Layers_itemMsg 5⟩ := by
  have h := c5_amended_bounds_error [] [] 5 (by decide) (by decide)
  exact ⟨h.1, h.2.2.1, h.2.2.2.2⟩

/-- C5 (counterexample): `Notifiers.__getitem__` indexes a materialized
Python list, so the negative index −1 — which the claim says must fail
with an `IndexError` embedding −1 — instead wraps around and returns the
last element. -/
theorem c5_counterexample_notifiers_negative_index :
    Notifiers_getitem [10, 20] (-1) = .ok 20 := rfl

/-- C6 (amended): `Channels.getByName` always raises the library's
not-found error embedding the requested name when no channel bears it;
`Documents.getByName` and `ArtLayers` lookups convert every boundary
failure kind they anticipate (`ArgumentError`, `COMError`, `KeyError`)
into a not-found error embedding the name; but `Layers.getByName`
converts only `KeyError`/`COMError` (leaking `ArgumentError` raw) while
`LayerSets`/`LayerComps` lookups convert only `ArgumentError` (leaking
`COMError` raw), so no single boundary failure kind is converted by
every collection. -/
theorem c6_amended_not_found_errors (n m : String) (xs : List RemoteChannel)
    (h : xs.find? (fun c => c.name = n) = none) :
    (Channels_getByName xs n =
       .error ⟨.psAPIError, "Could not find a channel named \"" ++ n ++ "\""⟩) ∧
    strContains ("Could not find a channel named \"" ++ n ++ "\"") n ∧
    (Documents_getByName (.error ⟨.comError, m⟩) n =
       .error ⟨.keyError, "No document found with name " ++ "'" ++ n ++ "'" ++ "."⟩) ∧
    (ArtLayers_getitem (.error ⟨.comError, m⟩) n =
       .error ⟨.keyError, "Could not find an ArtLayer named \"" ++ n ++ "\""⟩) ∧
    (Layers_getByName (.error ⟨.keyError, m⟩) n =
       .error ⟨.keyError, Layers_getByNameMsg n⟩) ∧
    (Layers_getByName (.error ⟨.comError, m⟩) n =
       .error ⟨.keyError, Layers_getByNameMsg n⟩) ∧
    (Layers_getByName (.error ⟨.argumentError, m⟩) n =
       .error ⟨.argumentError, m⟩) ∧
    (LayerSets_getitem (.error ⟨.argumentError, m⟩) n =
       .error ⟨.psAPIError, "Could not find a LayerSet named \"" ++ n ++ "\""⟩) ∧
    (LayerSets_getitem (.error ⟨.comError, m⟩) n = .error ⟨.comError, m⟩) ∧
    (LayerComps_getitem (.error ⟨.comError, m⟩) n = .error ⟨.comError, m⟩) := by
  refine ⟨?_, ⟨"Could not find a channel named \"", "\"", rfl⟩,
    rfl, rfl, rfl, rfl, rfl, rfl, rfl, rfl⟩
  unfold Channels_getByName
  rw [h]

/-- C6 (witness): the amended not-found statement at the empty channel
collection and name "missing". -/
theorem c6_amended_not_found_errors_witness :
    Channels_getByName [] "missing" =
      .error ⟨.psAPIError, "Could not find a channel named \"" ++ "missing" ++ "\""⟩ ∧
    Documents_getByName (.error ⟨.comError, "x"⟩) "missing" =
      .error ⟨.keyError, "No document found with name " ++ "'" ++ "missing" ++ "'" ++ "."⟩ := by
  have h := c6_amended_not_found_errors "missing" "x" [] rfl
  exact ⟨h.1, h.2.2.1⟩

/-- C6 (counterexample): when the boundary name lookup for a missing
name fails with the boundary protocol's generic `COMError`,
`LayerSets.__getitem__` (hence `LayerSets.getByName`) re-raises it raw —
not as a not-found error embedding the requested name "missing". -/
theorem c6_counterexample_layersets_leaks_raw_error :
    LayerSets_getitem (.error ⟨.comError, "Exception occurred."⟩) "missing" =
      .error ⟨.comError, "Exception occurred."⟩ ∧
    LayerSets_getitem (.error ⟨.comError, "Exception occurred."⟩) "missing" ≠
      .error ⟨.psAPIError, "Could not find a LayerSet named \"missing\""⟩ := by
  refine ⟨rfl, ?_⟩
  simp [LayerSets_getitem]

/-- C7 (amended): only `ArtLayer.remove` suppresses the outcome of its
single delete call and returns normally; `LayerSet.remove` and
`LayerComp.remove` call the remote delete bare and propagate any error
to the caller. -/
theorem c7_amended_remove_suppression (e : Exc) (r : Except Exc Unit) :
    ArtLayer_remove r = .ok () ∧
    LayerSet_remove (.error e) = .error e ∧
    LayerComp_remove (.error e) = .error e :=
  ⟨rfl, rfl, rfl⟩

/-- C7 (counterexample): `LayerSet.remove` does not suppress a failing
delete call — the error surfaces to the caller. -/
theorem c7_counterexample_layerset_remove_propagates :
    LayerSet_remove (.error ⟨.comError, "Exception occurred. General Photoshop error."⟩) ≠
      .ok () := by
  simp [LayerSet_remove]

/-- C8 (amended): reading a name absent from the wrapper's declared
surface is forwarded to the underlying handle and its value returned
verbatim, but writing such a name is not forwarded: Python's default
`object.__setattr__` stores the value on the wrapper itself, the
handle's attributes are unchanged, and the stored value then shadows the
handle on subsequent reads. -/
theorem c8_amended_read_forwarded_write_local (w : PSWrapper) (n : String) (v : Nat)
    (h : w.attrs.lookup n = none) :
    Photoshop_getattribute w n = w.appAttrs.lookup n ∧
    (Photoshop_setattr w n v).appAttrs = w.appAttrs ∧
    Photoshop_getattribute (Photoshop_setattr w n v) n = some v := by
  refine ⟨?_, rfl, ?_⟩
  · unfold Photoshop_getattribute
    rw [h]
  · unfold Photoshop_getattribute Photoshop_setattr
    simp [List.lookup]

/-- C8 (witness): the amended proxy statement on a wrapper with an empty
declared surface and a handle holding `visible = 1`. -/
theorem c8_amended_read_forwarded_write_local_witness :
    Photoshop_getattribute ⟨[], [("visible", 1)]⟩ "visible" = some 1 ∧
    (Photoshop_setattr ⟨[], [("visible", 1)]⟩ "visible" 2).appAttrs = [("visible", 1)] ∧
    Photoshop_getattribute (Photoshop_setattr ⟨[], [("visible", 1)]⟩ "visible" 2) "visible" =
      some 2 := by
  have h := c8_amended_read_forwarded_write_local ⟨[], [("visible", 1)]⟩ "visible" 2 rfl
  exact ⟨h.1, h.2.1, h.2.2⟩

/-- C8 (counterexample): writing the undeclared name "visible" through
the wrapper does not update the underlying handle — the handle still
holds the old value 1, not the written value 2. -/
theorem c8_counterexample_write_not_forwarded :
    (Photoshop_setattr ⟨[], [("visible", 1)]⟩ "visible" 2).appAttrs.lookup "visible" =
      some 1 ∧
    (Photoshop_setattr ⟨[], [("visible", 1)]⟩ "visible" 2).appAttrs.lookup "visible" ≠
      some 2 := by decide

/-- C10: once an `Application` instance is cached (``_app_instance`` set
and ``_app_initialized`` true), every later call with `singleton=True`
returns the cached instance, skips initialization entirely, leaves the
class state unchanged, and is insensitive to the version argument; a
call with `singleton=False` allocates a distinct fresh instance and runs
the full initialization with the supplied version. -/
theorem c10_singleton_cached (s : AppClassState) (i : Nat) (v v' : Option String)
    (h1 : s.instRef = some i) (h2 : s.initialized = true) (h3 : i < s.nextId) :
    (Application_call s v true).returned = i ∧
    (Application_call s v true).didInit = false ∧
    (Application_call s v true).initArg = none ∧
    (Application_call s v true).state = s ∧
    Application_call s v true = Application_call s v' true ∧
    (Application_call s v false).returned = s.nextId ∧
    (Application_call s v false).returned ≠ i ∧
    (Application_call s v false).didInit = true ∧
    (Application_call s v false).initArg = some v := by
  refine ⟨?_, ?_, ?_, ?_, ?_, ?_, ?_, ?_, ?_⟩
  all_goals simp [Application_call, h1, h2]
  omega

/-- C10 (witness): the singleton statement at the concrete cached state
`⟨true, some 0, 1⟩` with version arguments `none` and `"2024"`. -/
theorem c10_singleton_cached_witness :
    (Application_call ⟨true, some 0, 1⟩ none true).returned = 0 ∧
    (Application_call ⟨true, some 0, 1⟩ none true).didInit = false ∧
    Application_call ⟨true, some 0, 1⟩ none true =
      Application_call ⟨true, some 0, 1⟩ (some "2024") true ∧
    (Application_call ⟨true, some 0, 1⟩ none false).returned = 1 ∧
    (Application_call ⟨true, some 0, 1⟩ none false).didInit = true := by
  have h := c10_singleton_cached ⟨true, some 0, 1⟩ 0 none (some "2024") rfl rfl
    (by decide)
  exact ⟨h.1, h.2.1, h.2.2.2.2.1, h.2.2.2.2.2.1, h.2.2.2.2.2.2.2.1⟩

end PSApi
